import Mathlib

/-!
Shallow embedding of the jmullan.cmd helper library
(src/jmullan/cmd/auto_config.py, cmd.py, requests_handle.py)
together with theorems checking the specification's claims.

Python strings are modelled as Lean `String`s; the handful of Python string
operations the code uses (`in`, `lower`, `upper`, `startswith`, `replace`)
are defined below over the character list of the string so that they compute
in the kernel. The process environment (os.environ) is a partial map from
variable names to string values. `sys.stdout.encoding` and
`sys.stdout.isatty()` are passed in explicitly where the code consults them.
-/

/-- Python substring test `pat in s`, over the character lists. -/
def py_in (pat s : String) : Bool := decide (pat.data <:+: s.data)

/-- Python `s.lower()`, character by character. -/
def py_lower (s : String) : String := String.mk (s.data.map Char.toLower)

/-- Python `s.upper()`, character by character. -/
def py_upper (s : String) : String := String.mk (s.data.map Char.toUpper)

/-- Python `s.startswith(pre)`. -/
def py_startswith (s pre : String) : Bool := pre.data.isPrefixOf s.data

/-- Python `s.replace(a, b)` for single-character patterns, which is what
`name.replace("-", "_")` in the source amounts to. -/
def py_replace_char (s : String) (a b : Char) : String :=
  String.mk (s.data.map (fun c => if c = a then b else c))

/-- Values of type `MaybeString = str | None | _MISSING` from auto_config.py:
a present string, Python's `None`, or the module-level `MISSING` sentinel. -/
inductive MaybeString where
  | missing
  | null
  | str (s : String)
  deriving DecidableEq, Repr

/-- Python truthiness of a `MaybeString`: `_MISSING.__bool__` returns `False`,
`None` is falsy, and a string is truthy exactly when it is non-empty. -/
def MaybeString.truthy : MaybeString → Bool
  | MaybeString.missing => false
  | MaybeString.null => false
  | MaybeString.str s => decide (s ≠ "")

/-- Model of `os.environ`: a partial map from variable names to values.
A variable that is present maps to `some` of its (possibly empty) value. -/
abbrev Env : Type := String → Option String

/-- Function `get_environ` (auto_config.py lines 24-28): return `default` when
the key is absent from the environment, and the stored value otherwise. -/
def get_environ (env : Env) (key : String) (default : MaybeString) : MaybeString :=
  match env key with
  | none => default
  | some v => MaybeString.str v

/-- Function `stdout_is_utf` (auto_config.py line 38):
`"UTF" in sys.stdout.encoding.upper()`, with the encoding passed explicitly. -/
def stdout_is_utf (encoding : String) : Bool := py_in "UTF" (py_upper encoding)

/-- Function `get_terminal` (auto_config.py line 50): `get_environ("TERM")`,
whose omitted default argument is the `MISSING` sentinel. -/
def get_terminal (env : Env) : MaybeString :=
  get_environ env "TERM" MaybeString.missing

/-- Function `stdout_supports_unicode` (auto_config.py lines 41-45): `False`
when `TERM` is `"dumb"`, else whatever `stdout_is_utf` says. The comparison
`get_terminal() == "dumb"` is false for `None` and for `MISSING`. -/
def stdout_supports_unicode (env : Env) (encoding : String) : Bool :=
  if get_terminal env = MaybeString.str "dumb" then false
  else stdout_is_utf encoding

/-- Function `env_fallbacks` (auto_config.py lines 70-75): look up every
variable name, an absent one yielding the `MISSING` sentinel. -/
def env_fallbacks (env : Env) (var_names : List String) : List (String × MaybeString) :=
  var_names.map (fun var_name => (var_name, get_environ env var_name MaybeString.missing))

/-- Function `env_hint` (auto_config.py lines 78-85): `None` and `MISSING`
render as "(not set)"; a present value is replaced by "*** REDACTED ***" when
`"password" in k.lower()` or (`"token" in k.lower()` and `len(v)` is truthy);
the result is `f"{prefix}{k}={v}"`. -/
def env_hint (k : String) (v : MaybeString) (pre : String) : String :=
  match v with
  | MaybeString.null => pre ++ k ++ "=" ++ "(not set)"
  | MaybeString.missing => pre ++ k ++ "=" ++ "(not set)"
  | MaybeString.str s =>
    if py_in "password" (py_lower k) || (py_in "token" (py_lower k) && decide (s ≠ "")) then
      pre ++ k ++ "=" ++ "*** REDACTED ***"
    else
      pre ++ k ++ "=" ++ s

/-- Mark characters picked in `add_argument` (auto_config.py lines 102-107),
as the pair (true_mark, dot_mark). -/
def add_argument_marks (is_utf : Bool) : String × String :=
  if is_utf then ("✓", "·") else ("+", "-")

/-- Mark characters picked in `add_boolean_argument` (auto_config.py lines
242-249), as the triple (true_mark, false_mark, dot_mark). -/
def add_boolean_argument_marks (is_utf : Bool) : String × String × String :=
  if is_utf then ("✓", "✗", "·") else ("+", "✗", "-")

/-- Function `guess_boolean` (auto_config.py lines 214-218): `None` and
`MISSING` are false; a string is true when its lowercasing is one of
true/t/y/yes/1. -/
def guess_boolean (value : MaybeString) : Bool :=
  match value with
  | MaybeString.null => false
  | MaybeString.missing => false
  | MaybeString.str s => decide (py_lower s ∈ (["true", "t", "y", "yes", "1"] : List String))

/-- Default-derivation loop of `add_boolean_argument` (auto_config.py lines
228-237): scan the fallbacks for the first entry whose value `is not None`
(note: the `MISSING` sentinel is not `None`), take `guess_boolean` of it, and
only when no entry qualifies use the provided fallback. -/
def derive_boolean_default (fallbacks : List (String × MaybeString)) (fallback : Option Bool) :
    Option Bool :=
  match fallbacks.find? (fun kv => decide (kv.2 ≠ MaybeString.null)) with
  | some kv => some (guess_boolean kv.2)
  | none => fallback

/-- Default derivation as the specification words it: the first environment
variable that is actually set decides the default via `guess_boolean`;
otherwise the provided fallback is used. -/
def derive_boolean_default_spec (fallbacks : List (String × MaybeString)) (fallback : Option Bool) :
    Option Bool :=
  match fallbacks.find? (fun kv => match kv.2 with | MaybeString.str _ => true | _ => false) with
  | some kv => some (guess_boolean kv.2)
  | none => fallback

/-- One argparse action as registered by `add_boolean_argument`: its option
string, destination, whether it stores True or False, and its declared
default (a Python value of type bool | None). -/
structure ArgparseAction where
  option_string : String
  dest : String
  stores : Bool
  default : Option Bool
  deriving DecidableEq, Repr

/-- The two actions registered by `add_boolean_argument` (auto_config.py lines
277-282): `--name` is store_true with declared default `default or None`, and
`--no-name` is store_false with declared default `default`; both share the
destination `name.replace("-", "_")`. -/
def add_boolean_argument_actions (name : String) (default : Option Bool) : List ArgparseAction :=
  [ { option_string := "--" ++ name
      dest := py_replace_char name '-' '_'
      stores := true
      default := if default = some true then some true else none },
    { option_string := "--no-" ++ name
      dest := py_replace_char name '-' '_'
      stores := false
      default := default } ]

/-- The five checks precalculated by `UseCliColor.__init__`
(auto_config.py lines 139-144). -/
structure UseCliColor where
  no_color : MaybeString
  cli_color : MaybeString
  cli_color_force : MaybeString
  terminal : MaybeString
  is_tty : Bool
  deriving DecidableEq, Repr

/-- Constructor `UseCliColor.__init__`: snapshot NO_COLOR, CLICOLOR,
CLICOLOR_FORCE, TERM and whether stdout is a tty. -/
def UseCliColor.init (env : Env) (is_tty : Bool) : UseCliColor :=
  { no_color := get_environ env "NO_COLOR" MaybeString.missing
    cli_color := get_environ env "CLICOLOR" MaybeString.missing
    cli_color_force := get_environ env "CLICOLOR_FORCE" MaybeString.missing
    terminal := get_terminal env
    is_tty := is_tty }

/-- Method `UseCliColor.guess_if_color_is_default` (auto_config.py lines
146-158), branch for branch. -/
def UseCliColor.guess_if_color_is_default (u : UseCliColor) : Bool :=
  if u.no_color.truthy then false
  else if u.cli_color_force.truthy then true
  else if u.terminal = MaybeString.str "xterm-mono" ∨ u.terminal = MaybeString.str "dumb" then false
  else if u.cli_color.truthy then u.is_tty
  else u.is_tty

/-- Color default as the specification words it: a truthy NO_COLOR gives
False; otherwise a truthy CLICOLOR_FORCE gives True; otherwise TERM equal to
"xterm-mono" or "dumb" gives False; otherwise whether stdout is a tty. -/
def color_default_spec (u : UseCliColor) : Bool :=
  if u.no_color.truthy then false
  else if u.cli_color_force.truthy then true
  else if u.terminal = MaybeString.str "xterm-mono" ∨ u.terminal = MaybeString.str "dumb" then false
  else u.is_tty

/-- Body of an HTTP GET response, standing for `requests.Response` with its
`text` attribute (requests_handle.py). -/
structure Response where
  body : String
  deriving DecidableEq, Repr

/-- State of a `RequestsHandle` (requests_handle.py lines 15-27): the url, the
optional response, and the closed flag. -/
structure RequestsHandle where
  url : String
  response : Option Response
  closed : Bool
  deriving DecidableEq, Repr

/-- Constructor `RequestsHandle.__init__` (requests_handle.py lines 22-27):
store the url, perform `requests.get(url)` (modelled by the explicit `get`
function), and mark the handle open. -/
def RequestsHandle.init (get : String → Response) (url : String) : RequestsHandle :=
  { url := url, response := some (get url), closed := false }

/-- The three kinds of handle `open_file_or_stdin` can return: stdin, a
`RequestsHandle`, or an opened file recorded with its mode and encoding. -/
inductive Handle where
  | stdin
  | requests (h : RequestsHandle)
  | file (path mode encoding : String)
  deriving DecidableEq, Repr

/-- Function `open_file_or_stdin` (cmd.py lines 88-94): "-" means stdin, an
http(s) url is opened via `RequestsHandle`, anything else is
`pathlib.Path(filename).open("r", encoding="utf-8")`. -/
def open_file_or_stdin (get : String → Response) (filename : String) : Handle :=
  if filename = "-" then Handle.stdin
  else if py_startswith filename "https://" || py_startswith filename "http://" then
    Handle.requests (RequestsHandle.init get filename)
  else Handle.file filename "r" "utf-8"

/-- State touched by cmd.py's read and write helpers: the contents of stdin,
the HTTP world, the file system (contents by path), and the sequence of
strings written to stdout (one entry per `sys.stdout.write`). -/
structure World where
  stdin : String
  http : String → Response
  fs : String → String
  stdout : List String

/-- Reading a handle to the end: stdin's contents, `RequestsHandle.read` with
size `None` (which returns `response.text`; a handle fresh from
`open_file_or_stdin` always has a response, so the none branch is unreachable
there), or the file's contents. -/
def Handle.read_all (h : Handle) (w : World) : String :=
  match h with
  | Handle.stdin => w.stdin
  | Handle.requests rh =>
    match rh.response with
    | some r => r.body
    | none => ""
  | Handle.file path _ _ => w.fs path

/-- Function `read_file_or_stdin` (cmd.py lines 97-100): open and read. -/
def read_file_or_stdin (w : World) (filename : String) : String :=
  (open_file_or_stdin w.http filename).read_all w

/-- Function `write_to_file_or_stdout` (cmd.py lines 103-110): "-" writes to
stdout, anything else opens the path for writing (truncating) and writes. -/
def write_to_file_or_stdout (w : World) (filename contents : String) : World :=
  if filename = "-" then { w with stdout := w.stdout ++ [contents] }
  else { w with fs := fun f => if f = filename then contents else w.fs f }

/-- Function `update_in_place` (cmd.py lines 137-144): read, transform, and
write back only when the transformed contents differ. -/
def update_in_place (w : World) (filename : String) (changer : String → String) : World :=
  let contents := read_file_or_stdin w filename
  let new_contents := changer contents
  if new_contents ≠ contents then write_to_file_or_stdout w filename new_contents
  else w

/-- Function `update_and_print` (cmd.py lines 147-154): read, transform, and
write to stdout only when the transformed contents differ. -/
def update_and_print (w : World) (filename : String) (changer : String → String) : World :=
  let contents := read_file_or_stdin w filename
  let new_contents := changer contents
  if new_contents ≠ contents then { w with stdout := w.stdout ++ [new_contents] }
  else w

/-- Method `InPlaceFileProcessor.process_filename` (cmd.py lines 306-308):
delegate to `update_in_place` with the subclass's `process_contents`. -/
def InPlaceFileProcessor.process_filename (process_contents : String → String) (w : World)
    (filename : String) : World :=
  update_in_place w filename process_contents

/-- Method `TextIoLineProcessor.process_file_handle` (cmd.py lines 345-352).
The state σ models the processor object together with the global `Jmullan.GO`
flag; `go` reads the flag and `process_line` is the abstract method, which may
update the state and returns the (should_print, processed) pair. `out`
accumulates the strings written to stdout. -/
def process_file_handle {σ : Type} (go : σ → Bool)
    (process_line : σ → String → String → σ × Bool × String)
    (filename : String) : List String → σ → List String → σ × List String
  | [], s, out => (s, out)
  | line :: rest, s, out =>
    if go s then
      match process_line s filename line with
      | (s', should_print, processed) =>
        process_file_handle go process_line filename rest s'
          (if should_print then out ++ [processed] else out)
    else (s, out)

/-- Lines written to stdout by a line processor, as the specification words
it: process the lines in order while the GO flag holds, and keep exactly the
processed lines whose should-print flag is true. -/
def printed_until_stop {σ : Type} (go : σ → Bool)
    (process_line : σ → String → String → σ × Bool × String)
    (filename : String) : List String → σ → List String
  | [], _ => []
  | line :: rest, s =>
    if go s then
      match process_line s filename line with
      | (s', should_print, processed) =>
        (if should_print then [processed] else []) ++
          printed_until_stop go process_line filename rest s'
    else []

/-- Lines kept when the GO flag never goes false: every line is processed in
order and exactly the should-print ones are kept. -/
def printed_lines {σ : Type} (process_line : σ → String → String → σ × Bool × String)
    (filename : String) : List String → σ → List String
  | [], _ => []
  | line :: rest, s =>
    match process_line s filename line with
    | (s', should_print, processed) =>
      (if should_print then [processed] else []) ++ printed_lines process_line filename rest s'

/-! Claims -/

/-- C1, counterexample: the claim says every present value whose variable name
contains "token" is redacted, but `env_hint` leaves a present empty value
unredacted for a "token" name, because the code additionally requires
`len(v)` to be truthy. -/
theorem C1_counterexample :
    py_in "token" (py_lower "token") = true
    ∧ env_hint "token" (MaybeString.str "") "" = "token="
    ∧ env_hint "token" (MaybeString.str "") "" ≠ "token=*** REDACTED ***" := by
  decide

/-- C1, amended: `env_hint` renders "*** REDACTED ***" whenever the name
contains "password" (case-insensitively), or contains "token" and the present
value is non-empty; any other present value is rendered literally, and an
absent value (None or MISSING) is rendered as "(not set)"; the name and the
given prefix always frame the rendered value. -/
theorem C1_env_hint_amended (k s pre : String) :
    (py_in "password" (py_lower k) = true →
      env_hint k (MaybeString.str s) pre = pre ++ k ++ "=" ++ "*** REDACTED ***")
    ∧ (py_in "token" (py_lower k) = true → s ≠ "" →
      env_hint k (MaybeString.str s) pre = pre ++ k ++ "=" ++ "*** REDACTED ***")
    ∧ (py_in "password" (py_lower k) = false →
      (py_in "token" (py_lower k) = false ∨ s = "") →
      env_hint k (MaybeString.str s) pre = pre ++ k ++ "=" ++ s)
    ∧ env_hint k MaybeString.null pre = pre ++ k ++ "=" ++ "(not set)"
    ∧ env_hint k MaybeString.missing pre = pre ++ k ++ "=" ++ "(not set)" := by
  refine ⟨?_, ?_, ?_, rfl, rfl⟩
  · intro hp
    simp [env_hint, hp]
  · intro ht hs
    simp [env_hint, ht, hs]
  · intro hp hts
    rcases hts with ht | hs
    · simp [env_hint, hp, ht]
    · simp [env_hint, hp, hs]

/-- C1, witness for the amended claim at a concrete secret-named variable. -/
theorem C1_witness :
    py_in "password" (py_lower "DB_PASSWORD") = true
    ∧ env_hint "DB_PASSWORD" (MaybeString.str "hunter2") "$"
        = "$" ++ "DB_PASSWORD" ++ "=" ++ "*** REDACTED ***" :=
  ⟨by decide, (C1_env_hint_amended "DB_PASSWORD" "hunter2" "$").1 (by decide)⟩

/-- C2: `get_environ` returns the given default exactly when the key is
absent, the empty string when the key is present but empty, and the stored
value when the key is present, never collapsing absence and emptiness. -/
theorem C2_get_environ (env : Env) (key : String) (default : MaybeString) :
    (env key = none → get_environ env key default = default)
    ∧ (env key = some "" → get_environ env key default = MaybeString.str "")
    ∧ (∀ v : String, env key = some v → get_environ env key default = MaybeString.str v) := by
  refine ⟨?_, ?_, ?_⟩
  · intro h
    simp [get_environ, h]
  · intro h
    simp [get_environ, h]
  · intro v h
    simp [get_environ, h]

/-- C2, witness at a concrete environment with a present and an absent key. -/
theorem C2_witness :
    ((fun k => if k = "HOME" then some "/root" else none) : Env) "HOME" = some "/root"
    ∧ get_environ (fun k => if k = "HOME" then some "/root" else none) "HOME" MaybeString.missing
        = MaybeString.str "/root" :=
  ⟨by decide,
    (C2_get_environ (fun k => if k = "HOME" then some "/root" else none) "HOME"
      MaybeString.missing).2.2 "/root" (by decide)⟩

/-- C3: the claim says that with a non-UTF stdout encoding every help-text
mark is ASCII plus/minus, and the UTF branches do use the check marks it
lists; but in `add_boolean_argument` the non-UTF branch still picks the
non-ASCII false_mark "✗", so the encoding does not pick every mark. -/
theorem C3_non_utf_false_mark :
    add_argument_marks true = ("✓", "·")
    ∧ add_boolean_argument_marks true = ("✓", "✗", "·")
    ∧ add_argument_marks false = ("+", "-")
    ∧ add_boolean_argument_marks false = ("+", "✗", "-")
    ∧ (add_boolean_argument_marks false).2.1 ≠ "+"
    ∧ (add_boolean_argument_marks false).2.1 ≠ "-"
    ∧ ((add_boolean_argument_marks false).2.1.data.all (fun c => decide (c.toNat < 128))) = false := by
  decide

/-- C4: `guess_if_color_is_default` decides the color default from the
snapshot exactly as the claim's precedence describes it; both CLICOLOR
branches of the code return whether stdout is a tty, so the decision
coincides with the spec-side description for every snapshot, in particular
for every snapshot taken at construction. -/
theorem C4_color_default (u : UseCliColor) (env : Env) (tty : Bool) :
    u.guess_if_color_is_default = color_default_spec u
    ∧ (UseCliColor.init env tty).guess_if_color_is_default
        = color_default_spec (UseCliColor.init env tty) := by
  constructor
  · unfold UseCliColor.guess_if_color_is_default color_default_spec
    split_ifs <;> rfl
  · unfold UseCliColor.guess_if_color_is_default color_default_spec
    split_ifs <;> rfl

/-- C6: `stdout_supports_unicode` returns false whenever TERM is exactly
"dumb", and otherwise returns true exactly when the uppercased stdout
encoding contains the substring "UTF". -/
theorem C6_stdout_supports_unicode (env : Env) (encoding : String) :
    (env "TERM" = some "dumb" → stdout_supports_unicode env encoding = false)
    ∧ (env "TERM" ≠ some "dumb" →
      (stdout_supports_unicode env encoding = true ↔ "UTF".data <:+: (py_upper encoding).data)) := by
  constructor
  · intro h
    simp [stdout_supports_unicode, get_terminal, get_environ, h]
  · intro h
    have hterm : get_terminal env ≠ MaybeString.str "dumb" := by
      unfold get_terminal get_environ
      cases hT : env "TERM" with
      | none => simp
      | some t =>
        simp only [MaybeString.str.injEq, ne_eq]
        intro ht
        exact h (by rw [hT, ht])
    simp [stdout_supports_unicode, hterm, stdout_is_utf, py_in]

/-- C6, witness at an empty environment and a UTF encoding. -/
theorem C6_witness :
    ((fun _ => none : Env) "TERM" ≠ some "dumb")
    ∧ (stdout_supports_unicode (fun _ => none) "utf-8" = true
        ↔ "UTF".data <:+: (py_upper "utf-8").data) :=
  ⟨by decide, (C6_stdout_supports_unicode (fun _ => none) "utf-8").2 (by decide)⟩

/-- C5: the code contradicts the claimed default derivation. An unset
variable appears in the fallbacks as the MISSING sentinel, which the loop's
`v is not None` test accepts, so the first variable always decides the
default: with FOOBAR unset and FOO_BAR=true the code derives False
(guess_boolean of MISSING) where the claim (first *set* fallback via
guess_boolean) gives True. The registered pair of actions is also shown:
destinations agree and option strings are --name and --no-name, but the
--name action declares default `default or None`, so a derived False default
is declared as None. -/
theorem C5_missing_treated_as_set :
    derive_boolean_default
        (env_fallbacks (fun k => if k = "FOO_BAR" then some "true" else none) ["FOOBAR", "FOO_BAR"])
        (some false) = some false
    ∧ derive_boolean_default_spec
        (env_fallbacks (fun k => if k = "FOO_BAR" then some "true" else none) ["FOOBAR", "FOO_BAR"])
        (some false) = some true
    ∧ get_environ (fun k => if k = "FOO_BAR" then some "true" else none) "FOOBAR"
        MaybeString.missing = MaybeString.missing
    ∧ guess_boolean MaybeString.missing = false
    ∧ guess_boolean (MaybeString.str "true") = true
    ∧ (add_boolean_argument_actions "foo-bar" (some false)).map ArgparseAction.dest
        = ["foo_bar", "foo_bar"]
    ∧ (add_boolean_argument_actions "foo-bar" (some false)).map ArgparseAction.option_string
        = ["--foo-bar", "--no-foo-bar"]
    ∧ (add_boolean_argument_actions "foo-bar" (some false)).map ArgparseAction.default
        = [none, some false] := by
  decide

/-- C7: `open_file_or_stdin` returns stdin for "-", a `RequestsHandle`
holding the response of an HTTP GET of the name for an http(s) url, and
otherwise the named path opened for reading as UTF-8 text. -/
theorem C7_open_file_or_stdin (get : String → Response) (filename : String) :
    (filename = "-" → open_file_or_stdin get filename = Handle.stdin)
    ∧ (filename ≠ "-" →
      (py_startswith filename "https://" = true ∨ py_startswith filename "http://" = true) →
      open_file_or_stdin get filename
        = Handle.requests { url := filename, response := some (get filename), closed := false })
    ∧ (filename ≠ "-" → py_startswith filename "https://" = false →
      py_startswith filename "http://" = false →
      open_file_or_stdin get filename = Handle.file filename "r" "utf-8") := by
  refine ⟨?_, ?_, ?_⟩
  · intro h
    simp [open_file_or_stdin, h]
  · intro h hu
    have hor : (py_startswith filename "https://" || py_startswith filename "http://") = true := by
      rcases hu with h1 | h2
      · simp [h1]
      · simp [h2]
    simp [open_file_or_stdin, h, hor, RequestsHandle.init]
  · intro h h1 h2
    simp [open_file_or_stdin, h, h1, h2]

/-- C7, witness at a concrete https url. -/
theorem C7_witness :
    ("https://example.com/data.txt" ≠ "-")
    ∧ py_startswith "https://example.com/data.txt" "https://" = true
    ∧ open_file_or_stdin (fun u => Response.mk ("body of " ++ u)) "https://example.com/data.txt"
        = Handle.requests
            { url := "https://example.com/data.txt"
              response := some (Response.mk ("body of " ++ "https://example.com/data.txt"))
              closed := false } :=
  ⟨by decide, by decide,
    (C7_open_file_or_stdin (fun u => Response.mk ("body of " ++ u))
      "https://example.com/data.txt").2.1 (by decide) (Or.inl (by decide))⟩

/-- Reading an ordinary file name (not "-", not an http(s) url) goes through
the file system. -/
theorem read_file_or_stdin_plain (w : World) (filename : String) (h1 : filename ≠ "-")
    (h2 : py_startswith filename "https://" = false)
    (h3 : py_startswith filename "http://" = false) :
    read_file_or_stdin w filename = w.fs filename := by
  simp [read_file_or_stdin, open_file_or_stdin, h1, h2, h3, Handle.read_all]

/-- C8: for an ordinary file name, `update_in_place` loads the file's
contents, applies the transform and leaves the transformed contents in that
same file, and `InPlaceFileProcessor.process_filename` is exactly
`update_in_place` applied to the subclass's `process_contents`. -/
theorem C8_update_in_place (w : World) (filename : String) (changer : String → String)
    (h1 : filename ≠ "-") (h2 : py_startswith filename "https://" = false)
    (h3 : py_startswith filename "http://" = false) :
    (update_in_place w filename changer).fs filename = changer (w.fs filename)
    ∧ InPlaceFileProcessor.process_filename changer w filename = update_in_place w filename changer := by
  refine ⟨?_, rfl⟩
  have hread := read_file_or_stdin_plain w filename h1 h2 h3
  unfold update_in_place
  rw [hread]
  by_cases hc : changer (w.fs filename) = w.fs filename
  · simp [hc]
  · simp [hc, write_to_file_or_stdout, h1]

/-- C8, witness at a concrete world and transform that changes the file. -/
theorem C8_witness :
    ("notes.txt" ≠ "-")
    ∧ (update_in_place (World.mk "" (fun _ => Response.mk "") (fun _ => "hello") [])
        "notes.txt" (fun s => s ++ "!")).fs "notes.txt"
      = (fun s => s ++ "!") ((World.mk "" (fun _ => Response.mk "") (fun _ => "hello") []).fs "notes.txt") :=
  ⟨by decide,
    (C8_update_in_place (World.mk "" (fun _ => Response.mk "") (fun _ => "hello") [])
      "notes.txt" (fun s => s ++ "!") (by decide) (by decide) (by decide)).1⟩

/-- C10: when the transform returns the contents unchanged, `update_in_place`
performs no write at all and `update_and_print` writes nothing to stdout: the
whole world (file system, stdout and all) is returned untouched, so a write
happens only when the transformed contents differ. -/
theorem C10_no_write_when_unchanged (w : World) (filename : String) (changer : String → String)
    (h : changer (read_file_or_stdin w filename) = read_file_or_stdin w filename) :
    update_in_place w filename changer = w ∧ update_and_print w filename changer = w := by
  constructor
  · simp [update_in_place, h]
  · simp [update_and_print, h]

/-- C10, witness: the identity transform on a concrete world changes
nothing. -/
theorem C10_witness :
    ((fun s : String => s) (read_file_or_stdin (World.mk "in" (fun _ => Response.mk "") (fun _ => "hello") []) "notes.txt")
        = read_file_or_stdin (World.mk "in" (fun _ => Response.mk "") (fun _ => "hello") []) "notes.txt")
    ∧ (update_in_place (World.mk "in" (fun _ => Response.mk "") (fun _ => "hello") []) "notes.txt" (fun s => s)
        = World.mk "in" (fun _ => Response.mk "") (fun _ => "hello") []
      ∧ update_and_print (World.mk "in" (fun _ => Response.mk "") (fun _ => "hello") []) "notes.txt" (fun s => s)
        = World.mk "in" (fun _ => Response.mk "") (fun _ => "hello") []) :=
  ⟨rfl,
    C10_no_write_when_unchanged (World.mk "in" (fun _ => Response.mk "") (fun _ => "hello") [])
      "notes.txt" (fun s => s) rfl⟩

/-- What `process_file_handle` appends to stdout is exactly
`printed_until_stop`, for every GO flag behaviour. -/
theorem process_file_handle_stdout {σ : Type} (go : σ → Bool)
    (pl : σ → String → String → σ × Bool × String) (fn : String) :
    ∀ (lines : List String) (s : σ) (out : List String),
    (process_file_handle go pl fn lines s out).2 = out ++ printed_until_stop go pl fn lines s := by
  intro lines
  induction lines with
  | nil =>
    intro s out
    simp [process_file_handle, printed_until_stop]
  | cons line rest ih =>
    intro s out
    by_cases hgo : go s
    · rcases hpl : pl s fn line with ⟨s', b, p⟩
      simp only [process_file_handle, printed_until_stop, hgo, if_true, hpl]
      rw [ih]
      cases b <;> simp
    · simp [process_file_handle, printed_until_stop, hgo]

/-- When the GO flag never goes false, `printed_until_stop` is the plain
in-order filter `printed_lines`. -/
theorem printed_until_stop_go_true {σ : Type}
    (pl : σ → String → String → σ × Bool × String) (fn : String) :
    ∀ (lines : List String) (s : σ),
    printed_until_stop (fun _ => true) pl fn lines s = printed_lines pl fn lines s := by
  intro lines
  induction lines with
  | nil =>
    intro s
    simp [printed_until_stop, printed_lines]
  | cons line rest ih =>
    intro s
    rcases hpl : pl s fn line with ⟨s', b, p⟩
    simp [printed_until_stop, printed_lines, hpl, ih]

/-- C9: for every GO flag behaviour and every starting state,
`process_file_handle` appends to stdout exactly the processed lines whose
should-print flag was true, in input order, taken while the GO flag holds
(`printed_until_stop`); when the GO flag never goes false this is the plain
in-order filter of all the lines (`printed_lines`); and the loop stops early
exactly at a state where the GO flag is false, writing nothing there. -/
theorem C9_process_file_handle {σ : Type} (go : σ → Bool)
    (pl : σ → String → String → σ × Bool × String)
    (fn : String) (lines : List String) (s : σ) (out : List String) :
    (process_file_handle go pl fn lines s out).2 = out ++ printed_until_stop go pl fn lines s
    ∧ printed_until_stop (fun _ => true) pl fn lines s = printed_lines pl fn lines s
    ∧ (∀ (s' : σ) (line : String) (rest : List String), go s' = false →
        process_file_handle go pl fn (line :: rest) s' out = (s', out)) := by
  refine ⟨process_file_handle_stdout go pl fn lines s out,
    printed_until_stop_go_true pl fn lines s, ?_⟩
  intro s' line rest hstop
  simp [process_file_handle, hstop]

/-- C9, witness: a concrete processor whose state is the GO flag itself,
started with the flag true, so both input lines are processed and written;
the early-stop conjunct is exercised at the flag-false state. -/
theorem C9_witness :
    (process_file_handle (fun s : Bool => s) (fun s _ l => (s, true, l)) "f" ["a", "b"] true []).2
      = [] ++ printed_until_stop (fun s : Bool => s) (fun s _ l => (s, true, l)) "f" ["a", "b"] true
    ∧ printed_until_stop (fun s : Bool => s) (fun s _ l => (s, true, l)) "f" ["a", "b"] true
      = ["a", "b"]
    ∧ ((fun s : Bool => s) false = false)
    ∧ process_file_handle (fun s : Bool => s) (fun s _ l => (s, true, l)) "f" ("x" :: ["y"]) false []
      = (false, []) :=
  ⟨(C9_process_file_handle (fun s : Bool => s) (fun s _ l => (s, true, l)) "f" ["a", "b"] true []).1,
    by decide, rfl,
    (C9_process_file_handle (fun s : Bool => s) (fun s _ l => (s, true, l)) "f" ["a", "b"] true
      []).2.2 false "x" ["y"] rfl⟩
